import Mathlib

/-!
Verification of the ITSM data pipeline DAG
(`item_analytics/airflow/dags/itsm_data_pipeline.py`).

The pipeline is a linear Airflow DAG over one staging table.  We embed the
task bodies as pure Lean functions: timestamps become `Option ℤ` (epoch
seconds; `none` is a missing value / SQL NULL), the derived duration becomes
`Option ℚ` (hours, exact), the Postgres database becomes an
`Option Table` (the single table `itsm_raw_tickets`, `none` when it does
not exist), and log output / exception flow become explicit values of
`List LogMsg` and `Except DbError`.
-/

/-- A source spreadsheet row: the 15 fixed columns of the `Raw Data` sheet.
Categorical/string columns are `Option String` (`none` = missing cell);
the two date columns are `Option ℤ` epoch seconds (`pd.to_datetime`
yields NaT on a missing cell, modelled as `none`). -/
structure SourceRow where
  inc_business_service : Option String
  inc_category : Option String
  inc_number : Option String
  inc_priority : Option String
  inc_sla_due : Option String
  inc_sys_created_on : Option ℤ
  inc_resolved_at : Option ℤ
  inc_assigned_to : Option String
  inc_state : Option String
  inc_cmdb_ci : Option String
  inc_caller_id : Option String
  inc_short_description : Option String
  inc_assignment_group : Option String
  inc_close_code : Option String
  inc_close_notes : Option String
  deriving DecidableEq, Repr

/-- A staged row: the source row plus the derived
`resolution_time_hours` column (NaN/NULL modelled as `none`). -/
structure Row extends SourceRow where
  resolution_time_hours : Option ℚ
  deriving DecidableEq, Repr

/-- The derived duration
`(pd.to_datetime(inc_resolved_at) - pd.to_datetime(inc_sys_created_on))
.dt.total_seconds() / 3600`: the difference of the two timestamps in
seconds divided by 3600.  If either timestamp is missing the subtraction
yields NaT and the result is NaN, i.e. `none`. -/
def resolutionHours (created resolved : Option ℤ) : Option ℚ :=
  match created, resolved with
  | some c, some r => some (((r : ℚ) - (c : ℚ)) / 3600)
  | _, _ => none

/-- One row of `extract_itsm_data`:
`df[resolution_time_hours] = (to_datetime(inc_resolved_at) -
to_datetime(inc_sys_created_on)).dt.total_seconds() / 3600`. -/
def extractRow (r : SourceRow) : Row :=
  { r with
    resolution_time_hours :=
      resolutionHours r.inc_sys_created_on r.inc_resolved_at }

/-- Errors surfaced by the database client / file reads; the task bodies
log these and re-raise them. -/
inductive DbError where
  | mk (msg : String)
  deriving DecidableEq, Repr

/-- The log lines the task bodies emit via `logging`. -/
inductive LogMsg where
  | infoExtracted (n : Nat)
  | infoLoaded (n : Nat)
  | infoChecksCompleted
  | warnDuplicates (n : Nat)
  | warnOutliers (n : Nat)
  | errorExtract (e : DbError)
  | errorLoad (e : DbError)
  | errorQuality (e : DbError)
  deriving DecidableEq, Repr

/-- Body of the `extract_itsm_data` task.  The Excel read may fail
(`src` is then `.error e`); the `except` clause logs the error and
re-raises it.  On success every row gets the derived duration column and
the frame is written to the staging CSV (returned here). -/
def extract_itsm_data (src : Except DbError (List SourceRow)) :
    List LogMsg × Except DbError (List Row) :=
  match src with
  | .error e => ([.errorExtract e], .error e)
  | .ok df => ([.infoExtracted df.length], .ok (df.map extractRow))

/-- C1: for every source row with both timestamps present, the derived
`resolution_time_hours` equals (resolved − created) expressed in hours,
exactly (seconds divided by 3600, as a rational). -/
theorem extract_resolution_exact (r : SourceRow) (c t : ℤ)
    (hc : r.inc_sys_created_on = some c)
    (ht : r.inc_resolved_at = some t) :
    (extractRow r).resolution_time_hours = some (((t : ℚ) - (c : ℚ)) / 3600) := by
  simp [extractRow, resolutionHours, hc, ht]

/-- The spec's example row: created 2024-01-01T00:00:00 (epoch 1704067200),
resolved 2024-01-02T00:00:00 (epoch 1704153600), all other columns empty. -/
def exampleRow : SourceRow :=
  { inc_business_service := none
    inc_category := none
    inc_number := some "INC001"
    inc_priority := none
    inc_sla_due := none
    inc_sys_created_on := some 1704067200
    inc_resolved_at := some 1704153600
    inc_assigned_to := none
    inc_state := none
    inc_cmdb_ci := none
    inc_caller_id := none
    inc_short_description := none
    inc_assignment_group := none
    inc_close_code := none
    inc_close_notes := none }

/-- C1 witness: on the spec's example row the computed duration is
exactly 24 hours. -/
theorem extract_resolution_exact_witness :
    (extractRow exampleRow).resolution_time_hours = some 24 := by
  have h := extract_resolution_exact exampleRow 1704067200 1704153600 rfl rfl
  rw [h]
  norm_num

/-! ## The staging table -/

/-- Postgres column types occurring in this pipeline: the declared
schema uses TEXT / TIMESTAMP / NUMERIC; `pandas.DataFrame.to_sql` maps
object columns to TEXT and float64 columns to DOUBLE PRECISION. -/
inductive ColType where
  | text
  | timestamp
  | numeric
  | doublePrecision
  deriving DecidableEq, Repr

/-- The one table the pipeline touches (`itsm_raw_tickets`): a typed
column schema plus its rows. -/
structure Table where
  schema : List (String × ColType)
  rows : List Row
  deriving DecidableEq, Repr

/-- Database state: `none` when `itsm_raw_tickets` does not exist. -/
abbrev DB := Option Table

/-- The 16-column schema of the `CREATE TABLE IF NOT EXISTS` statement in
`create_staging_table_task`: TEXT columns, TIMESTAMP for the two date
columns, NUMERIC for the derived duration. -/
def declaredSchema : List (String × ColType) :=
  [("inc_business_service", .text),
   ("inc_category", .text),
   ("inc_number", .text),
   ("inc_priority", .text),
   ("inc_sla_due", .text),
   ("inc_sys_created_on", .timestamp),
   ("inc_resolved_at", .timestamp),
   ("inc_assigned_to", .text),
   ("inc_state", .text),
   ("inc_cmdb_ci", .text),
   ("inc_caller_id", .text),
   ("inc_short_description", .text),
   ("inc_assignment_group", .text),
   ("inc_close_code", .text),
   ("inc_close_notes", .text),
   ("resolution_time_hours", .numeric)]

/-- The schema `df.to_sql` creates from the frame read back out of
`/tmp/itsm_staging.csv`: `pd.read_csv` leaves every source column
(timestamps included) as object, mapped to TEXT, and the derived
duration as float64, mapped to DOUBLE PRECISION. -/
def inferredSchema : List (String × ColType) :=
  [("inc_business_service", .text),
   ("inc_category", .text),
   ("inc_number", .text),
   ("inc_priority", .text),
   ("inc_sla_due", .text),
   ("inc_sys_created_on", .text),
   ("inc_resolved_at", .text),
   ("inc_assigned_to", .text),
   ("inc_state", .text),
   ("inc_cmdb_ci", .text),
   ("inc_caller_id", .text),
   ("inc_short_description", .text),
   ("inc_assignment_group", .text),
   ("inc_close_code", .text),
   ("inc_close_notes", .text),
   ("resolution_time_hours", .doublePrecision)]

/-- The `CREATE TABLE IF NOT EXISTS itsm_raw_tickets (...)` statement of
`create_staging_table_task`: creates the empty declared table when it is
absent, does nothing when any table of that name exists. -/
def create_staging_table_task (db : DB) : DB :=
  match db with
  | none => some { schema := declaredSchema, rows := [] }
  | some t => some t

/-- The call `df.to_sql('itsm_raw_tickets', engine, if_exists='replace',
index=False)`: drop whatever table exists and recreate it from the
frame, with the inferred column types. -/
def toSqlReplace (file : List Row) (_db : DB) : DB :=
  some { schema := inferredSchema, rows := file }

/-- Body of the `load_to_postgres` task.  Reading the staging CSV may
fail (`file` is then `.error e`); the `except` clause logs and re-raises,
leaving the database untouched.  On success the table is wholesale
replaced by the file's rows. -/
def load_to_postgres (file : Except DbError (List Row)) (db : DB) :
    List LogMsg × DB × Except DbError Unit :=
  match file with
  | .error e => ([.errorLoad e], db, .error e)
  | .ok f => ([.infoLoaded f.length], toSqlReplace f db, .ok ())

/-- Row count of the destination table (0 when it does not exist). -/
def tableRowCount (db : DB) : Nat :=
  match db with
  | none => 0
  | some t => t.rows.length

/-- C2: the load is a full replace, so it is idempotent — loading the
same file twice leaves the same database state, in particular the same
row count, as loading it once; and that row count is the file's length. -/
theorem load_replace_idempotent (f : List Row) (db : DB) :
    toSqlReplace f (toSqlReplace f db) = toSqlReplace f db
    ∧ tableRowCount (toSqlReplace f (toSqlReplace f db))
        = tableRowCount (toSqlReplace f db)
    ∧ tableRowCount (toSqlReplace f db) = f.length := by
  refine ⟨rfl, rfl, rfl⟩

/-- C6: running the Schema Initializer when the table already exists is a
no-op — schema and rows are untouched — and running it twice from any
state errors nowhere and equals running it once. -/
theorem create_staging_table_noop (db : DB) :
    (∀ t : Table, create_staging_table_task (some t) = some t)
    ∧ create_staging_table_task (create_staging_table_task db)
        = create_staging_table_task db := by
  constructor
  · intro t
    rfl
  · cases db <;> rfl

/-- C9: after any successful load the table is exactly the one recreated
from the intermediate file — nothing of the prior state (its declared
TIMESTAMP/NUMERIC schema included) survives: the result is independent of
the prior database state, its column types are the CSV-inferred ones, and
the inferred schema differs from the declared one. -/
theorem load_discards_declared_schema (f : List Row) (db db' : DB) :
    toSqlReplace f db = some { schema := inferredSchema, rows := f }
    ∧ toSqlReplace f db = toSqlReplace f db'
    ∧ inferredSchema ≠ declaredSchema := by
  refine ⟨rfl, rfl, by decide⟩

/-! ## The quality checks -/

/-- The duplicate query:
`SELECT COUNT(*) FROM (SELECT inc_number, COUNT(*) FROM itsm_raw_tickets
GROUP BY inc_number HAVING COUNT(*) > 1) t` — the number of
`inc_number` groups (SQL groups all NULLs together) holding more than
one row. -/
def duplicateCount (rows : List Row) : Nat :=
  (((rows.map (fun r => r.inc_number)).dedup.map
      (fun k => (k, (rows.map (fun r => r.inc_number)).count k))).filter
    (fun g => 1 < g.2)).length

/-- The WHERE clause of the outlier query on one row:
`resolution_time_hours > 720 OR resolution_time_hours < 0`.  A NULL
duration compares as UNKNOWN on both sides, so the row is not selected. -/
def isOutlier (r : Row) : Bool :=
  match r.resolution_time_hours with
  | some h => decide (720 < h) || decide (h < 0)
  | none => false

/-- The outlier query: `SELECT COUNT(*) FROM itsm_raw_tickets WHERE
resolution_time_hours > 720 OR resolution_time_hours < 0`. -/
def outlierCount (rows : List Row) : Nat :=
  (rows.filter isOutlier).length

/-- Body of the `run_data_quality_checks` task.  `conn` is the outcome of
reaching the table through the Postgres hook: `.error e` when the
query/connection fails, in which case the `except` clause logs the error
and re-raises it; otherwise both counts are computed and each positive
count is logged as a warning. -/
def run_data_quality_checks (conn : Except DbError (List Row)) :
    List LogMsg × Except DbError Unit :=
  match conn with
  | .error e => ([.errorQuality e], .error e)
  | .ok rows =>
      ((if 0 < duplicateCount rows
          then [.warnDuplicates (duplicateCount rows)] else []) ++
       (if 0 < outlierCount rows
          then [.warnOutliers (outlierCount rows)] else []) ++
       [.infoChecksCompleted],
       .ok ())

/-! ## The DAG -/

/-- The six tasks of the DAG, by their `task_id`. -/
inductive PipelineTask where
  | extract_itsm_data
  | create_staging_table
  | load_to_postgres
  | run_data_quality_checks
  | run_dbt_transformations
  | run_dbt_tests
  deriving DecidableEq, Fintype, Repr

/-- The dependency edges declared at the bottom of the DAG file:
`extract_data_task >> create_staging_table_task >> load_data_task >>
data_quality_task` and `data_quality_task >> run_dbt_task >>
run_dbt_tests_task`. -/
def dagEdges : List (PipelineTask × PipelineTask) :=
  [(.extract_itsm_data, .create_staging_table),
   (.create_staging_table, .load_to_postgres),
   (.load_to_postgres, .run_data_quality_checks),
   (.run_data_quality_checks, .run_dbt_transformations),
   (.run_dbt_transformations, .run_dbt_tests)]

/-- Number of declared edges into a task. -/
def inDegree (t : PipelineTask) : Nat :=
  (dagEdges.filter (fun e => decide (e.2 = t))).length

/-- Number of declared edges out of a task. -/
def outDegree (t : PipelineTask) : Nat :=
  (dagEdges.filter (fun e => decide (e.1 = t))).length

/-! ## Theorems on the quality checks, error flow and DAG -/

/-- C3: the Quality Checker returns normally on every table state —
findings are only warnings — and it raises exactly when the
query/connection fails, in which case the error is logged and re-raised
unchanged. -/
theorem quality_checks_raise_only_on_db_error :
    (∀ rows : List Row, (run_data_quality_checks (.ok rows)).2 = .ok ())
    ∧ (∀ e, run_data_quality_checks (.error e) = ([.errorQuality e], .error e)) := by
  constructor
  · intro rows
    rfl
  · intro e
    rfl

/-- C4: a row is selected by the outlier query exactly when its duration
is present and negative or above 720, and the warning is logged exactly
when the selected count is positive. -/
theorem outlier_check_exact (rows : List Row) :
    (∀ r : Row, isOutlier r = true ↔
        ∃ h, r.resolution_time_hours = some h ∧ (h < 0 ∨ 720 < h))
    ∧ ((∃ n, LogMsg.warnOutliers n ∈ (run_data_quality_checks (.ok rows)).1)
        ↔ 0 < outlierCount rows) := by
  constructor
  · intro r
    cases hres : r.resolution_time_hours with
    | none => simp [isOutlier, hres]
    | some h =>
        simp only [isOutlier, hres, Bool.or_eq_true, decide_eq_true_eq,
          Option.some.injEq]
        constructor
        · rintro (h1 | h1)
          · exact ⟨h, rfl, Or.inr h1⟩
          · exact ⟨h, rfl, Or.inl h1⟩
        · rintro ⟨h', rfl, (h1 | h1)⟩
          · exact Or.inr h1
          · exact Or.inl h1
  · by_cases ho : 0 < outlierCount rows <;>
      by_cases hd : 0 < duplicateCount rows <;>
        simp [run_data_quality_checks, ho, hd]

/-- C5: the duplicate query counts incident-number groups with more than
one row; any table containing two rows numbered "INC001" yields a count
of at least 1, and the warning is logged exactly when the count is
positive. -/
theorem duplicate_check_counts_groups (l₁ l₂ l₃ : List Row) (r₁ r₂ : Row)
    (h₁ : r₁.inc_number = some "INC001")
    (h₂ : r₂.inc_number = some "INC001") :
    1 ≤ duplicateCount (l₁ ++ r₁ :: l₂ ++ r₂ :: l₃)
    ∧ (∀ rows : List Row,
        ((∃ n, LogMsg.warnDuplicates n ∈ (run_data_quality_checks (.ok rows)).1)
          ↔ 0 < duplicateCount rows)) := by
  constructor
  · have hcount :
        2 ≤ (((l₁ ++ r₁ :: l₂ ++ r₂ :: l₃).map (fun r => r.inc_number)).count
              (some "INC001")) := by
      simp [List.count_append, List.count_cons, h₁, h₂]
      omega
    have hlt : 1 <
        (((l₁ ++ r₁ :: l₂ ++ r₂ :: l₃).map (fun r => r.inc_number)).count
          (some "INC001")) := by
      omega
    have hmem : (some "INC001") ∈
        ((l₁ ++ r₁ :: l₂ ++ r₂ :: l₃).map (fun r => r.inc_number)).dedup := by
      rw [List.mem_dedup]
      exact List.count_pos_iff.mp (by omega)
    have hmem2 :
        ((some "INC001"),
          ((l₁ ++ r₁ :: l₂ ++ r₂ :: l₃).map (fun r => r.inc_number)).count
            (some "INC001")) ∈
        (((l₁ ++ r₁ :: l₂ ++ r₂ :: l₃).map (fun r => r.inc_number)).dedup.map
          (fun k => (k,
            ((l₁ ++ r₁ :: l₂ ++ r₂ :: l₃).map (fun r => r.inc_number)).count k))) :=
      List.mem_map_of_mem _ hmem
    have hfil :
        ((some "INC001"),
          ((l₁ ++ r₁ :: l₂ ++ r₂ :: l₃).map (fun r => r.inc_number)).count
            (some "INC001")) ∈
        ((((l₁ ++ r₁ :: l₂ ++ r₂ :: l₃).map (fun r => r.inc_number)).dedup.map
          (fun k => (k,
            ((l₁ ++ r₁ :: l₂ ++ r₂ :: l₃).map (fun r => r.inc_number)).count k))).filter
          (fun g => 1 < g.2)) :=
      List.mem_filter.mpr ⟨hmem2, decide_eq_true hlt⟩
    exact List.length_pos.mpr (List.ne_nil_of_mem hfil)
  · intro rows
    by_cases ho : 0 < outlierCount rows <;>
      by_cases hd : 0 < duplicateCount rows <;>
        simp [run_data_quality_checks, ho, hd]

/-- C5 witness: a table of exactly two rows numbered "INC001" has
duplicate count at least 1 (in fact the query counts the single group,
not the two rows). -/
theorem duplicate_check_counts_groups_witness :
    1 ≤ duplicateCount [extractRow exampleRow, extractRow exampleRow] :=
  (duplicate_check_counts_groups [] [] [] (extractRow exampleRow)
    (extractRow exampleRow) rfl rfl).1

/-- C10: a row whose duration is NULL is never selected by the outlier
query — it leaves the outlier count unchanged wherever it sits in the
table — and every selected row has a present duration below 0 or above
720; a source row lacking its resolution timestamp produces such a NULL
duration. -/
theorem null_duration_not_flagged (rows₁ rows₂ : List Row) (r : Row)
    (h : r.resolution_time_hours = none) :
    isOutlier r = false
    ∧ outlierCount (rows₁ ++ r :: rows₂) = outlierCount (rows₁ ++ rows₂)
    ∧ (∀ r' : Row, isOutlier r' = true →
        ∃ h', r'.resolution_time_hours = some h' ∧ (h' < 0 ∨ 720 < h'))
    ∧ (∀ s : SourceRow, s.inc_resolved_at = none →
        (extractRow s).resolution_time_hours = none) := by
  have hout : isOutlier r = false := by simp [isOutlier, h]
  refine ⟨hout, ?_, ?_, ?_⟩
  · simp [outlierCount, List.filter_append, hout]
  · intro r' hr'
    cases hres : r'.resolution_time_hours with
    | none => simp [isOutlier, hres] at hr'
    | some h' =>
        simp only [isOutlier, hres, Bool.or_eq_true, decide_eq_true_eq] at hr'
        rcases hr' with h1 | h1
        · exact ⟨h', rfl, Or.inr h1⟩
        · exact ⟨h', rfl, Or.inl h1⟩
  · intro s hs
    cases hc : s.inc_sys_created_on <;>
      simp [extractRow, resolutionHours, hs, hc]

/-- C10 witness: a concrete row with NULL duration is not flagged and
does not change the outlier count of a one-row table. -/
theorem null_duration_not_flagged_witness :
    isOutlier { exampleRow with resolution_time_hours := none } = false
    ∧ outlierCount [extractRow exampleRow,
        { exampleRow with resolution_time_hours := none }]
      = outlierCount [extractRow exampleRow] := by
  have h := null_duration_not_flagged [extractRow exampleRow] []
    { exampleRow with resolution_time_hours := none } rfl
  exact ⟨h.1, h.2.1⟩

/-- C7: each task body logs its error context and re-raises the incoming
exception unchanged; on failure the load leaves the database untouched,
and a task returns success only by completing all of its steps (extract:
every row extended; load: table fully replaced; checks: both queries
run). -/
theorem tasks_log_and_reraise :
    (∀ e, extract_itsm_data (.error e) = ([.errorExtract e], .error e))
    ∧ (∀ df, extract_itsm_data (.ok df)
        = ([.infoExtracted df.length], .ok (df.map extractRow)))
    ∧ (∀ e db, load_to_postgres (.error e) db = ([.errorLoad e], db, .error e))
    ∧ (∀ f db, load_to_postgres (.ok f) db
        = ([.infoLoaded f.length], toSqlReplace f db, .ok ()))
    ∧ (∀ e, run_data_quality_checks (.error e) = ([.errorQuality e], .error e))
    ∧ (∀ conn, (run_data_quality_checks conn).2.isOk = conn.isOk) := by
  refine ⟨fun e => rfl, fun df => rfl, fun e db => rfl, fun f db => rfl,
    fun e => rfl, fun conn => ?_⟩
  cases conn <;> rfl

/-- C8: the declared dependency edges form exactly the linear chain
extract → create table → load → quality checks → dbt run → dbt tests;
every task has exactly one predecessor except the first and exactly one
successor except the last. -/
theorem dag_is_linear_chain :
    dagEdges = [(.extract_itsm_data, .create_staging_table),
      (.create_staging_table, .load_to_postgres),
      (.load_to_postgres, .run_data_quality_checks),
      (.run_data_quality_checks, .run_dbt_transformations),
      (.run_dbt_transformations, .run_dbt_tests)]
    ∧ (∀ t : PipelineTask, inDegree t = if t = .extract_itsm_data then 0 else 1)
    ∧ (∀ t : PipelineTask, outDegree t = if t = .run_dbt_tests then 0 else 1) := by
  refine ⟨rfl, ?_, ?_⟩ <;> decide
